import Mathlib

/-!
Verification of the sinas execution platform against its specification.

The shallow embedding below translates the service-layer code:
  - src/app/api/executions.py        (list/get executions, steps, logs endpoints)
  - src/app/api/webhooks.py          (webhook CRUD, soft delete)
  - src/backend/app/api/runtime/endpoints/webhooks.py (runtime webhook dispatch)
  - src/app/services/redis_logger.py (per-execution Redis log streams)
  - alembic migrations (execution status enum values, continuation columns,
    chat foreign-key on-delete actions)
Database tables are lists of rows, the Redis store is a pair of finite maps
(streams and TTLs), HTTP failures are Except values carrying the status code.
The execution state machine and the resume interface are not part of the
sources; those definitions are modelled from the spec and say so in their
doc comments.
-/

/-- JSON values as the Python service passes them around (dicts, lists, scalars). -/
inductive Json where
  | null : Json
  | bool (b : Bool) : Json
  | num (n : Int) : Json
  | str (s : String) : Json
  | arr (xs : List Json) : Json
  | obj (fields : List (String × Json)) : Json

/-- Python truthiness of a JSON value (used by the logger's `if output_data:` guards). -/
def Json.truthy : Json → Bool
  | .null => false
  | .bool b => b
  | .num n => n != 0
  | .str s => s != ""
  | .arr xs => !xs.isEmpty
  | .obj fields => !fields.isEmpty

/-- Execution status enum: base values plus AWAITING_INPUT (migration 06138fc1ccc4)
and CANCELLED (migration b3c4d5e6f7a8). -/
inductive ExecutionStatus where
  | PENDING : ExecutionStatus
  | RUNNING : ExecutionStatus
  | AWAITING_INPUT : ExecutionStatus
  | COMPLETED : ExecutionStatus
  | FAILED : ExecutionStatus
  | CANCELLED : ExecutionStatus
deriving DecidableEq

/-- Trigger type enum (spec section 3; MANUAL added by migration a1c10336abd5). -/
inductive TriggerType where
  | MANUAL : TriggerType
  | WEBHOOK : TriggerType
  | SCHEDULE : TriggerType
  | EMAIL : TriggerType
  | CHAT : TriggerType
deriving DecidableEq

/-- HTTP methods accepted by the runtime webhook route. -/
inductive HTTPMethod where
  | GET : HTTPMethod
  | POST : HTTPMethod
  | PUT : HTTPMethod
  | DELETE : HTTPMethod
  | PATCH : HTTPMethod
deriving DecidableEq

/-- Modelled from the spec: a JSON-schema fragment of the shape the spec uses for
resumption input (a root type plus property types, as in
section 8 scenario 3); the full jsonschema library is not in the sources. -/
inductive JsonTy where
  | object : JsonTy
  | array : JsonTy
  | stringTy : JsonTy
  | number : JsonTy
  | boolean : JsonTy
  | nullTy : JsonTy
deriving DecidableEq

/-- Modelled from the spec: the stored `input_schema` structure describing valid
resumption input (column added by migration 4ae78c37abf2). -/
structure InputSchema where
  ty : JsonTy
  properties : List (String × JsonTy)

/-- Does a JSON value have the given primitive type? -/
def typeMatches : JsonTy → Json → Bool
  | .object, .obj _ => true
  | .array, .arr _ => true
  | .stringTy, .str _ => true
  | .number, .num _ => true
  | .boolean, .bool _ => true
  | .nullTy, .null => true
  | _, _ => false

/-- Modelled from the spec: conformance of supplied input to the stored schema --
the root type must match and every declared property that is present must have
the declared type. -/
def conformsTo (s : InputSchema) (j : Json) : Bool :=
  typeMatches s.ty j &&
  (match j with
   | .obj fields =>
       s.properties.all fun p =>
         match fields.find? (fun kv => kv.1 == p.1) with
         | none => true
         | some kv => typeMatches p.2 kv.2
   | _ => true)

/-- Conformance against an optional stored schema (a missing schema rejects nothing). -/
def conformsOpt : Option InputSchema → Json → Bool
  | some s, j => conformsTo s j
  | none, _ => true

/-- A row of the executions table: the columns of ExecutionResponse
(src/app/api/schemas.py) plus subtenant_id (used by get_execution), chat_id
(migration d61d4c243a1f) and the continuation columns (migration 4ae78c37abf2). -/
structure ExecutionRow where
  execution_id : String
  subtenant_id : String
  function_name : String
  trigger_type : TriggerType
  trigger_id : String
  status : ExecutionStatus
  input_data : Json
  output_data : Option Json
  error : Option String
  traceback : Option String
  started_at : Nat
  completed_at : Option Nat
  duration_ms : Option Nat
  chat_id : Option String
  generator_state : Option (List Nat)
  input_prompt : Option String
  input_schema : Option InputSchema

/-- A row of the step_executions table (columns of StepExecutionResponse in
src/app/api/schemas.py). -/
structure StepRow where
  id : String
  execution_id : String
  function_name : String
  status : ExecutionStatus
  input_data : Json
  output_data : Option Json
  error : Option String
  duration_ms : Option Nat
  started_at : Nat
  completed_at : Option Nat

/-- Terminal statuses (spec section 4.1: COMPLETED, FAILED, CANCELLED). -/
def ExecutionStatus.isTerminal : ExecutionStatus → Bool
  | .COMPLETED => true
  | .FAILED => true
  | .CANCELLED => true
  | _ => false

/-- Modelled from the spec: the directed transition graph of section 4.1
(the orchestrator and state store code is not under src; only the enum
migrations are). PENDING to RUNNING on claim; RUNNING to COMPLETED, FAILED or
AWAITING_INPUT; AWAITING_INPUT back to RUNNING on resume; any non-terminal
state to CANCELLED. -/
def allowedTransition : ExecutionStatus → ExecutionStatus → Bool
  | .PENDING, .RUNNING => true
  | .RUNNING, .COMPLETED => true
  | .RUNNING, .FAILED => true
  | .RUNNING, .AWAITING_INPUT => true
  | .AWAITING_INPUT, .RUNNING => true
  | s, .CANCELLED => !s.isTerminal
  | _, _ => false

/-- Modelled from the spec: the sequence of status values one execution takes on.
Dispatch creates every execution PENDING (section 4.2), and each observed change
follows the section 4.1 graph. -/
def ValidTrace (t : List ExecutionStatus) : Prop :=
  t.head? = some .PENDING ∧ t.Chain' (fun a b => allowedTransition a b = true)

/-- Errors of the resume interface (spec section 6: unknown execution, execution
not suspended, input failing schema validation). -/
inductive ResumeErr where
  | notFound : ResumeErr
  | notAwaiting : ResumeErr
  | validation : ResumeErr
deriving DecidableEq

/-- Modelled from the spec: the resume interface (sections 6 and 4.3; the endpoint
code is not under src, only the continuation columns of migration 4ae78c37abf2).
Accepts an execution id and input; validates the input against the stored
`input_schema`, rejecting without touching the table on mismatch; on success it
marks the execution RUNNING and re-invokes the backend with the stored
continuation plus the new input, which the ok payload records as the pair
(stored `generator_state` bytes, supplied input). Returns the possibly updated
table together with the outcome. -/
def resume (db : List ExecutionRow) (execution_id : String) (input : Json) :
    List ExecutionRow × Except ResumeErr (List Nat × Json) :=
  match db.find? (fun r => r.execution_id == execution_id) with
  | none => (db, .error .notFound)
  | some e =>
    if e.status = .AWAITING_INPUT then
      if conformsOpt e.input_schema input then
        (db.map (fun r =>
            if r.execution_id == execution_id then { r with status := .RUNNING } else r),
         .ok (e.generator_state.getD [], input))
      else
        (db, .error .validation)
    else
      (db, .error .notAwaiting)

/-- Descending started_at order (the endpoint's order_by started_at desc). -/
def execLeDesc (x y : ExecutionRow) : Prop := y.started_at ≤ x.started_at

instance : DecidableRel execLeDesc := fun x y => Nat.decLe y.started_at x.started_at

instance : IsTotal ExecutionRow execLeDesc := ⟨fun x y => Nat.le_total y.started_at x.started_at⟩

instance : IsTrans ExecutionRow execLeDesc := ⟨fun _ _ _ h h2 => Nat.le_trans h2 h⟩

/-- The optional filters of list_executions (src/app/api/executions.py lines
27-35). Python's `if function_name:` treats the empty string as unset, so an
empty function_name applies no filter; the enum filters test presence only. -/
def matchesFilters (e : ExecutionRow) (function_name : Option String)
    (status : Option ExecutionStatus) (trigger_type : Option TriggerType) : Bool :=
  (match function_name with
   | some f => if f = "" then true else e.function_name == f
   | none => true) &&
  (match status with
   | some s => e.status == s
   | none => true) &&
  (match trigger_type with
   | some t => e.trigger_type == t
   | none => true)

/-- The GET /executions handler (src/app/api/executions.py lines 16-46): filter,
order by started_at descending, then offset and limit. The handler declares no
subtenant dependency and no time-range parameter. -/
def list_executions (db : List ExecutionRow) (function_name : Option String)
    (status : Option ExecutionStatus) (trigger_type : Option TriggerType)
    (limit : Nat) (offset : Nat) : List ExecutionRow :=
  ((((db.filter (fun e => matchesFilters e function_name status trigger_type)).insertionSort
      execLeDesc).drop offset).take limit)

/-- The behavior claim C6 describes, written from the spec words: the same query
with an additional inclusive time-range filter on started_at. Refinement
target only; the handler in the source has no such parameter. -/
def list_executions_claim (db : List ExecutionRow) (function_name : Option String)
    (status : Option ExecutionStatus) (trigger_type : Option TriggerType)
    (time_range : Option (Nat × Nat)) (limit : Nat) (offset : Nat) : List ExecutionRow :=
  ((((db.filter (fun e =>
        matchesFilters e function_name status trigger_type &&
        (match time_range with
         | some r => decide (r.1 ≤ e.started_at) && decide (e.started_at ≤ r.2)
         | none => true))).insertionSort
      execLeDesc).drop offset).take limit)

/-- The GET /executions route as reached by an authenticated request: the caller
carries a subtenant context, but the handler declares no subtenant dependency
(src/app/api/executions.py lines 16-24), so the context never reaches the query. -/
def list_executions_request (_subtenant_ctx : String) (db : List ExecutionRow)
    (function_name : Option String) (status : Option ExecutionStatus)
    (trigger_type : Option TriggerType) (limit : Nat) (offset : Nat) : List ExecutionRow :=
  list_executions db function_name status trigger_type limit offset

/-- The GET /executions/{id} handler (src/app/api/executions.py lines 49-68):
the row must match both the execution id and the caller's subtenant context,
else 404. -/
def get_execution (db : List ExecutionRow) (execution_id : String)
    (subtenant_id : String) : Except Nat ExecutionRow :=
  match db.find? (fun e => e.execution_id == execution_id && e.subtenant_id == subtenant_id) with
  | none => .error 404
  | some e => .ok e

/-- Ascending started_at order on steps (the steps endpoint's order_by). -/
def stepLe (x y : StepRow) : Prop := x.started_at ≤ y.started_at

instance : DecidableRel stepLe := fun x y => Nat.decLe x.started_at y.started_at

instance : IsTotal StepRow stepLe := ⟨fun x y => Nat.le_total x.started_at y.started_at⟩

instance : IsTrans StepRow stepLe := ⟨fun _ _ _ => Nat.le_trans⟩

/-- The GET /executions/{id}/steps handler (src/app/api/executions.py lines
71-90): 404 if the execution does not exist, else its steps ordered by
started_at ascending. -/
def get_execution_steps (execs : List ExecutionRow) (steps : List StepRow)
    (execution_id : String) : Except Nat (List StepRow) :=
  match execs.find? (fun e => e.execution_id == execution_id) with
  | none => .error 404
  | some _ =>
    .ok ((steps.filter (fun s => s.execution_id == execution_id)).insertionSort stepLe)

/-- A chats table row (only the key matters here). -/
structure ChatRow where
  id : String

/-- A messages table row with its chat foreign key. -/
structure MessageRow where
  id : String
  chat_id : String

/-- A pending_tool_approvals table row with its chat foreign key. -/
structure PendingApprovalRow where
  id : String
  chat_id : String

/-- The tables touched by deleting a chat. -/
structure ChatDb where
  chats : List ChatRow
  messages : List MessageRow
  pending_tool_approvals : List PendingApprovalRow
  executions : List ExecutionRow

/-- Deleting a chat row, with the ON DELETE actions declared by migration
cd25b0f773ad: messages and pending_tool_approvals rows CASCADE (are removed),
while executions.chat_id is SET NULL and the execution row itself survives. -/
def delete_chat (db : ChatDb) (chat_id : String) : ChatDb :=
  { chats := db.chats.filter (fun c => c.id != chat_id),
    messages := db.messages.filter (fun m => m.chat_id != chat_id),
    pending_tool_approvals := db.pending_tool_approvals.filter (fun p => p.chat_id != chat_id),
    executions := db.executions.map (fun e =>
      if e.chat_id == some chat_id then { e with chat_id := none } else e) }

/-- A row of the webhooks table of the v1 CRUD API (columns of WebhookResponse in
src/app/api/schemas.py plus subtenant_id; the create handler stores the creating
subtenant and the table default makes new webhooks active). -/
structure Webhook where
  id : String
  subtenant_id : String
  path : String
  function_name : String
  http_method : HTTPMethod
  description : Option String
  default_values : Option (List (String × Json))
  requires_auth : Bool
  is_active : Bool

/-- The WebhookCreate request body (src/app/api/schemas.py lines 121-127). -/
structure WebhookCreate where
  path : String
  function_name : String
  http_method : HTTPMethod
  description : Option String
  default_values : Option (List (String × Json))
  requires_auth : Bool

/-- The POST /webhooks handler (src/app/api/webhooks.py lines 17-45): reject with
400 if any row already has the requested path (the check reads no other column),
else insert a new active row recording the creating subtenant. Returns the
table after the call together with the HTTP outcome. -/
def create_webhook (db : List Webhook) (d : WebhookCreate)
    (subtenant_id : String) (new_id : String) : List Webhook × Except Nat Webhook :=
  match db.find? (fun w => w.path == d.path) with
  | some _ => (db, .error 400)
  | none =>
    let w : Webhook :=
      { id := new_id, subtenant_id := subtenant_id, path := d.path,
        function_name := d.function_name, http_method := d.http_method,
        description := d.description, default_values := d.default_values,
        requires_auth := d.requires_auth, is_active := true }
    (db ++ [w], .ok w)

/-- The DELETE /webhooks/{id} handler (src/app/api/webhooks.py lines 112-132):
404 if no row has the id, else soft delete by setting is_active to False; the
row is never removed. Ill-formed UUID ids (the 400 branch) are outside this
model, which treats ids as opaque strings. -/
def delete_webhook (db : List Webhook) (webhook_id : String) :
    List Webhook × Except Nat String :=
  match db.find? (fun w => w.id == webhook_id) with
  | none => (db, .error 404)
  | some _ =>
    (db.map (fun w => if w.id == webhook_id then { w with is_active := false } else w),
     .ok "Webhook deleted successfully")

/-- A row of the webhooks table as the runtime dispatcher reads it
(src/backend/app/api/runtime/endpoints/webhooks.py: path, http_method,
is_active, requires_auth, user_id of the owner, target function reference and
default input values). -/
structure RtWebhook where
  id : String
  user_id : String
  path : String
  http_method : HTTPMethod
  function_namespace : String
  function_name : String
  default_values : Option (List (String × Json))
  requires_auth : Bool
  is_active : Bool

/-- The own-scoped execute permission string the dispatcher builds for the
target function. -/
def functionPermOwn (w : RtWebhook) : String :=
  "sinas.functions/" ++ w.function_namespace ++ "/" ++ w.function_name ++ ".execute:own"

/-- The all-scoped execute permission string the dispatcher builds for the
target function. -/
def functionPermAll (w : RtWebhook) : String :=
  "sinas.functions/" ++ w.function_namespace ++ "/" ++ w.function_name ++ ".execute:all"

/-- Python dict merge as in the dispatcher's default-values handling: keys of d
keep their position but take the value from r when present; keys only in r are
appended. -/
def dictMerge (d r : List (String × Json)) : List (String × Json) :=
  d.map (fun kv =>
    match r.find? (fun kv2 => kv2.1 == kv.1) with
    | some kv2 => (kv.1, kv2.2)
    | none => kv)
  ++ r.filter (fun kv2 => (d.find? (fun kv => kv.1 == kv2.1)).isNone)

/-- The input the dispatcher hands to the queue: the webhook's default values
merged under the extracted request data, or the request data alone. -/
def finalInput (w : RtWebhook) (request_data : List (String × Json)) : Json :=
  match w.default_values with
  | some d => Json.obj (dictMerge d request_data)
  | none => Json.obj request_data

/-- The arguments of the queue_service.enqueue_and_wait call made by the
dispatcher. -/
structure EnqueueCall where
  function_namespace : String
  function_name : String
  input_data : Json
  execution_id : String
  trigger_type : TriggerType
  trigger_id : String
  user_id : String
  chat_id : Option String

/-- The enqueue_and_wait call exactly as execute_webhook builds it. -/
def mkEnqueueCall (w : RtWebhook) (input : Json) (execution_id : String)
    (user_id : String) (chat_id : Option String) : EnqueueCall :=
  { function_namespace := w.function_namespace, function_name := w.function_name,
    input_data := input, execution_id := execution_id,
    trigger_type := .WEBHOOK, trigger_id := w.id,
    user_id := user_id, chat_id := chat_id }

/-- The response body of a successful webhook dispatch. -/
structure WebhookHttpResponse where
  success : Bool
  execution_id : String
  result : Json

/-- The runtime webhook handler (src/backend/app/api/runtime/endpoints/webhooks.py
lines 61-151). Matching is by path, HTTP method and the active flag; a missing
match is 404. If the webhook requires auth, a missing credential or a failing
verifier is 401 and a verified credential lacking the execute permission (all
scope, or own scope together with webhook ownership) is 403; otherwise the
webhook owner's user id is used. The queue call's failure is 500; its result is
wrapped in the success body. The external collaborators -- credential verifier,
permission evaluator and queue -- are parameters, as are the extracted request
data, the generated execution id and the optional chat header. -/
def execute_webhook (webhooks : List RtWebhook) (path : String) (method : HTTPMethod)
    (auth_header : Option String)
    (verify : String → Except String (String × String × List String))
    (check_permission : List String → String → Bool)
    (request_data : List (String × Json)) (execution_id : String)
    (chat_id : Option String)
    (enqueue : EnqueueCall → Except String Json) : Except Nat WebhookHttpResponse :=
  match webhooks.find? (fun w => w.path == path && w.http_method == method && w.is_active) with
  | none => .error 404
  | some w =>
    let user : Except Nat String :=
      if w.requires_auth then
        match auth_header with
        | none => .error 401
        | some h =>
          match verify h with
          | .error _ => .error 401
          | .ok (uid, _, permissions) =>
            if check_permission permissions (functionPermAll w)
               || (check_permission permissions (functionPermOwn w) && w.user_id == uid) then
              .ok uid
            else
              .error 403
      else
        .ok w.user_id
    match user with
    | .error code => .error code
    | .ok uid =>
      match enqueue (mkEnqueueCall w (finalInput w request_data) execution_id uid chat_id) with
      | .error _ => .error 500
      | .ok r => .ok { success := true, execution_id := execution_id, result := r }

/-- A field value inside one Redis stream entry (the Python dicts hold strings,
numbers and JSON payloads). -/
inductive FieldVal where
  | s (v : String) : FieldVal
  | j (v : Json) : FieldVal
  | n (v : Nat) : FieldVal

/-- One appended stream entry: the field-value pairs passed to xadd. -/
abbrev LogEntry := List (String × FieldVal)

/-- The Redis store as the logger uses it: per-key entry lists (a missing key is
the empty stream) and per-key TTLs. -/
structure RedisState where
  streams : String → List LogEntry
  ttls : String → Option Nat

/-- Redis XADD: append one entry to the stream at the key, creating it if absent. -/
def xadd (st : RedisState) (key : String) (e : LogEntry) : RedisState :=
  { st with streams := fun k => if k = key then st.streams k ++ [e] else st.streams k }

/-- Redis EXPIRE: set the TTL of the key. -/
def expire (st : RedisState) (key : String) (secs : Nat) : RedisState :=
  { st with ttls := fun k => if k = key then some secs else st.ttls k }

/-- Redis XRANGE over the whole stream, with the optional COUNT bound. -/
def xrange (st : RedisState) (key : String) (count : Option Nat) : List LogEntry :=
  match count with
  | some c => (st.streams key).take c
  | none => st.streams key

/-- The TTL currently attached to a key. -/
def ttlOf (st : RedisState) (key : String) : Option Nat := st.ttls key

/-- The stream key of one execution (the Python f-string over the execution id). -/
def streamKey (execution_id : String) : String := "execution:" ++ execution_id

/-- The entry RedisLogger.log_execution_start appends. -/
def startEntry (execution_id function_name : String) (input_data : Json)
    (now : String) : LogEntry :=
  [("timestamp", .s now), ("execution_id", .s execution_id),
   ("event", .s "execution_started"), ("function_name", .s function_name),
   ("input_data", .j input_data)]

/-- RedisLogger.log_execution_start (src/app/services/redis_logger.py lines
42-67): a no-op when not connected; otherwise xadd the start entry and then set
the 7-day TTL, each command's failure being caught and swallowed (a failing
xadd skips the expire; a failing expire still keeps the append). The failAdd
and failExpire flags are the failure oracle for the two commands. -/
def log_execution_start (connected : Bool) (failAdd failExpire : Bool)
    (st : RedisState) (execution_id function_name : String) (input_data : Json)
    (now : String) : RedisState :=
  if !connected then st
  else if failAdd then st
  else
    let st1 := xadd st (streamKey execution_id) (startEntry execution_id function_name input_data now)
    if failExpire then st1 else expire st1 (streamKey execution_id) 604800

/-- The entry RedisLogger.log_execution_end appends: output_data only when
truthy, error only when a non-empty string, duration defaulted to 0. -/
def endEntry (execution_id status : String) (output_data : Option Json)
    (error : Option String) (duration_ms : Option Nat) (now : String) : LogEntry :=
  let base : LogEntry :=
    [("timestamp", .s now), ("execution_id", .s execution_id),
     ("event", .s "execution_completed"), ("status", .s status),
     ("duration_ms", .n (duration_ms.getD 0))]
  let withOut :=
    match output_data with
    | some o => if o.truthy then base ++ [("output_data", .j o)] else base
    | none => base
  match error with
  | some e => if e != "" then withOut ++ [("error", .s e)] else withOut
  | none => withOut

/-- RedisLogger.log_execution_end (src/app/services/redis_logger.py lines
69-100): a no-op when not connected; otherwise one xadd whose failure is caught
and swallowed. No expire command is issued. -/
def log_execution_end (connected : Bool) (failAdd : Bool) (st : RedisState)
    (execution_id status : String) (output_data : Option Json)
    (error : Option String) (duration_ms : Option Nat) (now : String) : RedisState :=
  if !connected then st
  else if failAdd then st
  else xadd st (streamKey execution_id) (endEntry execution_id status output_data error duration_ms now)

/-- The entry RedisLogger.log_function_call appends. -/
def callEntry (execution_id function_name step_id : String) (input_data : Json)
    (now : String) : LogEntry :=
  [("timestamp", .s now), ("execution_id", .s execution_id),
   ("event", .s "function_called"), ("function_name", .s function_name),
   ("step_id", .s step_id), ("input_data", .j input_data)]

/-- RedisLogger.log_function_call (src/app/services/redis_logger.py lines
102-127): a no-op when not connected; otherwise one xadd whose failure is
caught and swallowed. No expire command is issued. -/
def log_function_call (connected : Bool) (failAdd : Bool) (st : RedisState)
    (execution_id function_name step_id : String) (input_data : Json)
    (now : String) : RedisState :=
  if !connected then st
  else if failAdd then st
  else xadd st (streamKey execution_id) (callEntry execution_id function_name step_id input_data now)

/-- The entry RedisLogger.log_function_result appends. -/
def resultEntry (execution_id function_name step_id : String)
    (output_data : Option Json) (error : Option String) (duration_ms : Option Nat)
    (now : String) : LogEntry :=
  let base : LogEntry :=
    [("timestamp", .s now), ("execution_id", .s execution_id),
     ("event", .s "function_completed"), ("function_name", .s function_name),
     ("step_id", .s step_id), ("duration_ms", .n (duration_ms.getD 0))]
  let withOut :=
    match output_data with
    | some o => if o.truthy then base ++ [("output_data", .j o)] else base
    | none => base
  match error with
  | some e => if e != "" then withOut ++ [("error", .s e)] else withOut
  | none => withOut

/-- RedisLogger.log_function_result (src/app/services/redis_logger.py lines
129-162): a no-op when not connected; otherwise one xadd whose failure is
caught and swallowed. No expire command is issued. -/
def log_function_result (connected : Bool) (failAdd : Bool) (st : RedisState)
    (execution_id function_name step_id : String) (output_data : Option Json)
    (error : Option String) (duration_ms : Option Nat) (now : String) : RedisState :=
  if !connected then st
  else if failAdd then st
  else xadd st (streamKey execution_id)
    (resultEntry execution_id function_name step_id output_data error duration_ms now)

/-- RedisLogger.get_execution_logs (src/app/services/redis_logger.py lines
164-195): the empty list when not connected, the empty list when the xrange
command raises (failRange), else the stream's entries bounded by count. -/
def get_execution_logs (connected : Bool) (failRange : Bool) (st : RedisState)
    (execution_id : String) (count : Option Nat) : List LogEntry :=
  if !connected then []
  else if failRange then []
  else xrange st (streamKey execution_id) count

/-- A concrete completed execution row used by the concrete instances below. -/
def exRow (eid : String) (t : Nat) : ExecutionRow :=
  { execution_id := eid, subtenant_id := "s1", function_name := "f",
    trigger_type := .MANUAL, trigger_id := "tr1", status := .COMPLETED,
    input_data := .obj [], output_data := none, error := none, traceback := none,
    started_at := t, completed_at := none, duration_ms := none, chat_id := none,
    generator_state := none, input_prompt := none, input_schema := none }

/-- A concrete suspended execution holding the continuation of spec scenario 3. -/
def awaitingRow : ExecutionRow :=
  { exRow "e1" 10 with
    status := .AWAITING_INPUT,
    generator_state := some [1, 2, 3],
    input_prompt := some "Confirm action?",
    input_schema := some { ty := .object, properties := [("confirm", .boolean)] } }

/-- Two stored executions that differ only in id and start time. -/
def db6 : List ExecutionRow := [exRow "e1" 10, exRow "e2" 20]

/-- A concrete step row builder. -/
def stRow (i eid : String) (t : Nat) : StepRow :=
  { id := i, execution_id := eid, function_name := "g", status := .COMPLETED,
    input_data := .obj [], output_data := none, error := none,
    duration_ms := none, started_at := t, completed_at := none }

/-- A concrete chat database: one chat, one message, one execution in the chat. -/
def chDb : ChatDb :=
  { chats := [{ id := "c1" }],
    messages := [{ id := "m1", chat_id := "c1" }],
    pending_tool_approvals := [],
    executions := [{ exRow "e1" 10 with chat_id := some "c1" }] }

/-- A concrete registered webhook of the CRUD API. -/
def wh1 : Webhook :=
  { id := "w1", subtenant_id := "s1", path := "hooks/a", function_name := "f",
    http_method := .POST, description := none, default_values := none,
    requires_auth := true, is_active := true }

/-- A creation request for the same path as wh1. -/
def wc1 : WebhookCreate :=
  { path := "hooks/a", function_name := "g", http_method := .GET,
    description := none, default_values := none, requires_auth := false }

/-- A concrete runtime webhook that requires no auth. -/
def rtwOpen : RtWebhook :=
  { id := "rw1", user_id := "owner1", path := "open/hook", http_method := .POST,
    function_namespace := "ns", function_name := "f", default_values := none,
    requires_auth := false, is_active := true }

/-- A concrete runtime webhook that requires auth. -/
def rtwAuth : RtWebhook :=
  { id := "rw2", user_id := "owner2", path := "auth/hook", http_method := .POST,
    function_namespace := "ns", function_name := "g", default_values := none,
    requires_auth := true, is_active := true }

/-- A concrete Redis state whose one stream already carries a 5-second TTL. -/
def st5 : RedisState :=
  { streams := fun k => if k = "execution:e1" then [startEntry "e1" "f" (.obj []) "t0"] else [],
    ttls := fun k => if k = "execution:e1" then some 5 else none }

lemma allowedTransition_of_terminal (s u : ExecutionStatus)
    (h : s.isTerminal = true) : allowedTransition s u = false := by
  cases s <;> cases u <;> simp_all [ExecutionStatus.isTerminal, allowedTransition]

/-- Claim C1: along any valid status trace of an execution, every change follows
the section 4.1 directed graph; no state is RUNNING without an earlier PENDING;
and a terminal status (COMPLETED, FAILED, CANCELLED) is the last entry of the
trace, so it never changes again. -/
theorem c1_status_transition_graph (t : List ExecutionStatus) (h : ValidTrace t) :
    (∀ i, i + 1 < t.length →
        allowedTransition (t.getD i .PENDING) (t.getD (i + 1) .PENDING) = true) ∧
    (∀ i, i < t.length → t.getD i .PENDING = .RUNNING →
        ∃ j, j < i ∧ t.getD j .PENDING = .PENDING) ∧
    (∀ i, i < t.length → (t.getD i .PENDING).isTerminal = true → i = t.length - 1) := by
  obtain ⟨hhead, hchain⟩ := h
  have hstep : ∀ i, i + 1 < t.length →
      allowedTransition (t.getD i .PENDING) (t.getD (i + 1) .PENDING) = true := by
    intro i hi
    have h1 : i < t.length := Nat.lt_of_succ_lt hi
    have h0 : i < t.length - 1 := by omega
    have := List.chain'_iff_get.mp hchain i h0
    rwa [List.getD_eq_get t _ h1, List.getD_eq_get t _ hi]
  have hne : t ≠ [] := by
    intro he
    rw [he] at hhead
    exact Option.noConfusion hhead
  have hget0 : t.getD 0 .PENDING = .PENDING := by
    cases t with
    | nil => exact absurd rfl hne
    | cons a l =>
      simp only [List.head?_cons, Option.some.injEq] at hhead
      simpa using hhead
  refine ⟨hstep, ?_, ?_⟩
  · intro i hi hrun
    have hi0 : i ≠ 0 := by
      intro h0
      rw [h0, hget0] at hrun
      exact ExecutionStatus.noConfusion hrun
    exact ⟨0, Nat.pos_of_ne_zero hi0, hget0⟩
  · intro i hi hterm
    by_contra hne2
    have hsucc : i + 1 < t.length := by omega
    have := hstep i hsucc
    rw [allowedTransition_of_terminal _ _ hterm] at this
    exact Bool.noConfusion this

/-- Witness for C1 on the concrete trace PENDING, RUNNING, COMPLETED. -/
theorem c1_status_transition_graph_witness :
    ∃ j, j < 1 ∧ ([ExecutionStatus.PENDING, .RUNNING, .COMPLETED].getD j .PENDING
        = ExecutionStatus.PENDING) := by
  have hv : ValidTrace [ExecutionStatus.PENDING, .RUNNING, .COMPLETED] :=
    ⟨rfl, List.chain'_cons.mpr ⟨rfl, List.chain'_cons.mpr ⟨rfl, List.chain'_singleton _⟩⟩⟩
  exact (c1_status_transition_graph _ hv).2.1 1 (by decide) rfl

/-- Claim C2: resuming an AWAITING_INPUT execution with input that fails the
stored schema returns the validation error and leaves the table untouched (so
status and the continuation fields are unchanged); with conforming input the
record transitions to RUNNING, rows of other executions are untouched, and the
backend is re-invoked with the stored continuation bytes plus the new input. -/
theorem c2_resume_validation (db : List ExecutionRow) (eid : String) (input : Json)
    (e : ExecutionRow)
    (hfind : db.find? (fun r => r.execution_id == eid) = some e)
    (hstat : e.status = .AWAITING_INPUT) :
    (conformsOpt e.input_schema input = false →
        resume db eid input = (db, .error .validation)) ∧
    (conformsOpt e.input_schema input = true →
        (resume db eid input).2 = .ok (e.generator_state.getD [], input) ∧
        { e with status := .RUNNING } ∈ (resume db eid input).1 ∧
        ∀ r ∈ db, (r.execution_id == eid) = false → r ∈ (resume db eid input).1) := by
  have hpe : (e.execution_id == eid) = true :=
    @List.find?_some ExecutionRow (fun r => r.execution_id == eid) e db hfind
  have hme : e ∈ db := List.mem_of_find?_eq_some hfind
  constructor
  · intro hbad
    simp [resume, hfind, hstat, hbad]
  · intro hok
    refine ⟨?_, ?_, ?_⟩
    · simp [resume, hfind, hstat, hok]
    · simp only [resume, hfind, hstat, if_true, hok, if_pos]
      exact List.mem_map.mpr ⟨e, hme, by rw [if_pos hpe]⟩
    · intro r hr hne
      simp only [resume, hfind, hstat, if_true, hok, if_pos]
      exact List.mem_map.mpr ⟨r, hr, by rw [if_neg (by simp [hne])]⟩

/-- Witness for C2: resuming the scenario-3 execution with a wrongly typed
confirm value is rejected with the validation error and changes nothing. -/
theorem c2_resume_validation_witness :
    resume [awaitingRow] "e1" (Json.obj [("confirm", Json.str "yes")])
      = ([awaitingRow], .error .validation) :=
  (c2_resume_validation [awaitingRow] "e1" (Json.obj [("confirm", Json.str "yes")])
    awaitingRow rfl rfl).1 rfl

/-- Claim C3: the runtime webhook dispatcher matches by path, method and active
flag, answers 404 with no active match, 401 with a missing or unverifiable
credential, 403 when the verified credential lacks the execute permission on
the target function, 500 when the queued execution fails, and wraps a
successful result as success, execution_id, result; without required auth the
enqueue call carries the webhook owner's user id. -/
theorem c3_webhook_dispatch
    (ws : List RtWebhook) (path : String) (method : HTTPMethod) (auth : Option String)
    (verify : String → Except String (String × String × List String))
    (check : List String → String → Bool)
    (req : List (String × Json)) (eid : String) (chat : Option String)
    (enqueue : EnqueueCall → Except String Json) :
    (ws.find? (fun w => w.path == path && w.http_method == method && w.is_active) = none →
        execute_webhook ws path method auth verify check req eid chat enqueue = .error 404) ∧
    (∀ w, ws.find? (fun w2 => w2.path == path && w2.http_method == method && w2.is_active)
        = some w →
      (w.requires_auth = true → auth = none →
          execute_webhook ws path method auth verify check req eid chat enqueue = .error 401) ∧
      (∀ h e, w.requires_auth = true → auth = some h → verify h = .error e →
          execute_webhook ws path method auth verify check req eid chat enqueue = .error 401) ∧
      (∀ h uid em perms, w.requires_auth = true → auth = some h →
          verify h = .ok (uid, em, perms) →
          (check perms (functionPermAll w)
            || (check perms (functionPermOwn w) && w.user_id == uid)) = false →
          execute_webhook ws path method auth verify check req eid chat enqueue = .error 403) ∧
      (∀ h uid em perms, w.requires_auth = true → auth = some h →
          verify h = .ok (uid, em, perms) →
          (check perms (functionPermAll w)
            || (check perms (functionPermOwn w) && w.user_id == uid)) = true →
          (∀ msg, enqueue (mkEnqueueCall w (finalInput w req) eid uid chat) = .error msg →
              execute_webhook ws path method auth verify check req eid chat enqueue
                = .error 500) ∧
          (∀ r, enqueue (mkEnqueueCall w (finalInput w req) eid uid chat) = .ok r →
              execute_webhook ws path method auth verify check req eid chat enqueue
                = .ok { success := true, execution_id := eid, result := r })) ∧
      (w.requires_auth = false →
          (∀ msg, enqueue (mkEnqueueCall w (finalInput w req) eid w.user_id chat)
              = .error msg →
              execute_webhook ws path method auth verify check req eid chat enqueue
                = .error 500) ∧
          (∀ r, enqueue (mkEnqueueCall w (finalInput w req) eid w.user_id chat) = .ok r →
              execute_webhook ws path method auth verify check req eid chat enqueue
                = .ok { success := true, execution_id := eid, result := r }))) := by
  constructor
  · intro hfind
    simp [execute_webhook, hfind]
  · intro w hfind
    refine ⟨?_, ?_, ?_, ?_, ?_⟩
    · intro hra hauth
      simp [execute_webhook, hfind, hra, hauth]
    · intro h e hra hauth hverify
      simp [execute_webhook, hfind, hra, hauth, hverify]
    · intro h uid em perms hra hauth hverify hperm
      simp [execute_webhook, hfind, hra, hauth, hverify, hperm]
    · intro h uid em perms hra hauth hverify hperm
      constructor
      · intro msg henq
        simp [execute_webhook, hfind, hra, hauth, hverify, hperm, henq]
      · intro r henq
        simp [execute_webhook, hfind, hra, hauth, hverify, hperm, henq]
    · intro hra
      constructor
      · intro msg henq
        simp [execute_webhook, hfind, hra, henq]
      · intro r henq
        simp [execute_webhook, hfind, hra, henq]

/-- Witness for C3 at concrete webhooks: an unmatched path is 404, an
unauthenticated webhook dispatches under the owner's id and wraps the result,
and a verified credential without the permission is 403. -/
theorem c3_webhook_dispatch_witness :
    execute_webhook [rtwOpen] "nope" .POST none (fun _ => .error "no") (fun _ _ => false)
        [] "x1" none (fun _ => .error "down") = .error 404 ∧
    execute_webhook [rtwOpen] "open/hook" .POST none (fun _ => .error "no") (fun _ _ => false)
        [] "x1" none (fun c => .ok (Json.str c.user_id))
      = .ok { success := true, execution_id := "x1", result := Json.str "owner1" } ∧
    execute_webhook [rtwAuth] "auth/hook" .POST (some "tok")
        (fun _ => .ok ("u9", "u9m", [])) (fun _ _ => false) [] "x2" none
        (fun _ => .error "down") = .error 403 := by
  refine ⟨?_, ?_, ?_⟩
  · exact (c3_webhook_dispatch [rtwOpen] "nope" .POST none (fun _ => .error "no")
      (fun _ _ => false) [] "x1" none (fun _ => .error "down")).1 rfl
  · exact (((c3_webhook_dispatch [rtwOpen] "open/hook" .POST none (fun _ => .error "no")
      (fun _ _ => false) [] "x1" none (fun c => .ok (Json.str c.user_id))).2 rtwOpen
      rfl).2.2.2.2 rfl).2 (Json.str "owner1") rfl
  · exact ((c3_webhook_dispatch [rtwAuth] "auth/hook" .POST (some "tok")
      (fun _ => .ok ("u9", "u9m", [])) (fun _ _ => false) [] "x2" none
      (fun _ => .error "down")).2 rtwAuth rfl).2.2.1 "tok" "u9" "u9m" [] rfl rfl rfl rfl

/-- Claim C4: every log-stream operation is total under log-store failure.
When the logger is not connected every append is the identity on the store and
the range read is empty; when the xadd command raises, the append swallows the
error and changes nothing; when only the trailing expire raises, the start
append still returns, keeping the already-appended entry; when the xrange
command raises, the read is empty. None of these functions touch any execution
record: they consume and produce only the Redis store. -/
theorem c4_log_store_failures_swallowed :
    (∀ fa fe st eid fn input now, log_execution_start false fa fe st eid fn input now = st) ∧
    (∀ fe st eid fn input now, log_execution_start true true fe st eid fn input now = st) ∧
    (∀ st eid fn input now, log_execution_start true false true st eid fn input now
        = xadd st (streamKey eid) (startEntry eid fn input now)) ∧
    (∀ fa st eid stt outd err dur now,
        log_execution_end false fa st eid stt outd err dur now = st) ∧
    (∀ st eid stt outd err dur now,
        log_execution_end true true st eid stt outd err dur now = st) ∧
    (∀ fa st eid fn sid input now, log_function_call false fa st eid fn sid input now = st) ∧
    (∀ st eid fn sid input now, log_function_call true true st eid fn sid input now = st) ∧
    (∀ fa st eid fn sid outd err dur now,
        log_function_result false fa st eid fn sid outd err dur now = st) ∧
    (∀ st eid fn sid outd err dur now,
        log_function_result true true st eid fn sid outd err dur now = st) ∧
    (∀ fr st eid count, get_execution_logs false fr st eid count = []) ∧
    (∀ st eid count, get_execution_logs true true st eid count = []) :=
  ⟨fun _ _ _ _ _ _ _ => rfl, fun _ _ _ _ _ _ => rfl, fun _ _ _ _ _ => rfl,
   fun _ _ _ _ _ _ _ _ => rfl, fun _ _ _ _ _ _ _ => rfl,
   fun _ _ _ _ _ _ _ => rfl, fun _ _ _ _ _ _ => rfl,
   fun _ _ _ _ _ _ _ _ _ => rfl, fun _ _ _ _ _ _ _ _ => rfl,
   fun _ _ _ _ => rfl, fun _ _ _ => rfl⟩

/-- Counterexample for C5: a successful execution-end append on a stream whose
TTL is 5 seconds leaves the TTL at 5 -- it is not refreshed to the full 604800
second window, contrary to the claim that every append refreshes it. -/
theorem c5_ttl_counterexample :
    ttlOf (log_execution_end true false st5 "e1" "COMPLETED" none none none "t1")
        "execution:e1" ≠ some 604800 := by
  decide

/-- Claim C5 as amended: only the execution-start append sets the stream's
7-day TTL (604800 seconds); the appends at execution end, step start and step
end never touch any TTL. -/
theorem c5_ttl_only_set_at_start :
    (∀ st eid fn input now,
        ttlOf (log_execution_start true false false st eid fn input now)
          (streamKey eid) = some 604800) ∧
    (∀ c fa st eid stt outd err dur now,
        (log_execution_end c fa st eid stt outd err dur now).ttls = st.ttls) ∧
    (∀ c fa st eid fn sid input now,
        (log_function_call c fa st eid fn sid input now).ttls = st.ttls) ∧
    (∀ c fa st eid fn sid outd err dur now,
        (log_function_result c fa st eid fn sid outd err dur now).ttls = st.ttls) := by
  refine ⟨?_, ?_, ?_, ?_⟩
  · intro st eid fn input now
    simp [log_execution_start, ttlOf, expire]
  · intro c fa st eid stt outd err dur now
    cases c <;> cases fa <;> simp [log_execution_end, xadd]
  · intro c fa st eid fn sid input now
    cases c <;> cases fa <;> simp [log_function_call, xadd]
  · intro c fa st eid fn sid outd err dur now
    cases c <;> cases fa <;> simp [log_function_result, xadd]

/-- Counterexample for C6: with two stored executions distinguishable only by
start time, the handler's output cannot honor a supplied time range -- it has
no time-range parameter -- so it differs from the claimed behavior, which would
keep only the execution started inside the range. -/
theorem c6_time_range_counterexample :
    list_executions db6 none none none 100 0
      ≠ list_executions_claim db6 none none none (some (0, 15)) 100 0 := by
  intro h
  exact absurd (congrArg List.length h) (by decide)

/-- Claim C6 as amended: the supported filters are function name (non-empty),
status and trigger type -- there is no time-range filter -- and whenever the
matching rows fit in the limit, the returned list contains exactly the stored
executions matching all supplied filters, ordered by start time descending. -/
theorem c6_list_filters (db : List ExecutionRow) (fn : Option String)
    (st : Option ExecutionStatus) (tt : Option TriggerType) (limit : Nat)
    (hlen : (db.filter (fun e => matchesFilters e fn st tt)).length ≤ limit) :
    (∀ e, e ∈ list_executions db fn st tt limit 0 ↔
        e ∈ db ∧ matchesFilters e fn st tt = true) ∧
    List.Sorted execLeDesc (list_executions db fn st tt limit 0) ∧
    (∀ lim2 offset2, list_executions db fn st tt lim2 offset2
        = list_executions_claim db fn st tt none lim2 offset2) := by
  have hperm := List.perm_insertionSort execLeDesc
    (db.filter (fun e => matchesFilters e fn st tt))
  have heq : list_executions db fn st tt limit 0
      = (db.filter (fun e => matchesFilters e fn st tt)).insertionSort execLeDesc := by
    unfold list_executions
    rw [List.drop_zero]
    exact List.take_of_length_le (by rw [hperm.length_eq]; exact hlen)
  refine ⟨?_, ?_, ?_⟩
  · intro e
    rw [heq]
    exact hperm.mem_iff.trans List.mem_filter
  · rw [heq]
    exact List.sorted_insertionSort execLeDesc _
  · intro lim2 offset2
    simp [list_executions, list_executions_claim]

/-- Witness for C6 at the concrete table db6. -/
theorem c6_list_filters_witness :
    exRow "e2" 20 ∈ list_executions db6 none none none 100 0 :=
  ((c6_list_filters db6 none none none 100 (by decide)).1 (exRow "e2" 20)).mpr
    ⟨by simp [db6], rfl⟩

/-- Claim C7: the steps query answers 404 when no execution has the id, and for
an existing execution returns exactly its stored steps sorted ascending by
started_at; when the stored steps are already in started_at order (steps of one
execution run sequentially), the result is exactly the insertion order. -/
theorem c7_steps_query (execs : List ExecutionRow) (steps : List StepRow) (eid : String) :
    (execs.find? (fun e => e.execution_id == eid) = none →
        get_execution_steps execs steps eid = .error 404) ∧
    (∀ w, execs.find? (fun e => e.execution_id == eid) = some w →
        ∃ l, get_execution_steps execs steps eid = .ok l ∧
          l.Perm (steps.filter (fun s => s.execution_id == eid)) ∧
          List.Sorted stepLe l ∧
          ((steps.filter (fun s => s.execution_id == eid)).Pairwise stepLe →
              l = steps.filter (fun s => s.execution_id == eid))) := by
  constructor
  · intro hfind
    simp [get_execution_steps, hfind]
  · intro w hfind
    refine ⟨(steps.filter (fun s => s.execution_id == eid)).insertionSort stepLe,
      ?_, ?_, ?_, ?_⟩
    · simp [get_execution_steps, hfind]
    · exact List.perm_insertionSort _ _
    · exact List.sorted_insertionSort _ _
    · intro hsorted
      exact List.Sorted.insertionSort_eq hsorted

/-- Witness for C7 at a concrete execution with two own steps and one foreign step. -/
theorem c7_steps_query_witness :
    ∃ l, get_execution_steps [exRow "e1" 10]
        [stRow "s1" "e1" 1, stRow "s2" "e1" 2, stRow "s3" "e9" 5] "e1" = .ok l ∧
      l.Perm ([stRow "s1" "e1" 1, stRow "s2" "e1" 2, stRow "s3" "e9" 5].filter
        (fun s => s.execution_id == "e1")) ∧
      List.Sorted stepLe l ∧
      (([stRow "s1" "e1" 1, stRow "s2" "e1" 2, stRow "s3" "e9" 5].filter
          (fun s => s.execution_id == "e1")).Pairwise stepLe →
        l = [stRow "s1" "e1" 1, stRow "s2" "e1" 2, stRow "s3" "e9" 5].filter
          (fun s => s.execution_id == "e1")) :=
  (c7_steps_query [exRow "e1" 10]
    [stRow "s1" "e1" 1, stRow "s2" "e1" 2, stRow "s3" "e9" 5] "e1").2
    (exRow "e1" 10) rfl

/-- Claim C8: deleting a chat never deletes the executions referencing it; the
executions table keeps the same number of rows, rows of other chats are
untouched, a referencing row survives with chat_id set to NULL, and every
surviving row agrees with the original on every field except chat_id. -/
theorem c8_chat_delete_set_null (db : ChatDb) (cid : String) :
    ((delete_chat db cid).executions.length = db.executions.length) ∧
    (∀ e, e ∈ db.executions → e.chat_id ≠ some cid →
        e ∈ (delete_chat db cid).executions) ∧
    (∀ e, e ∈ db.executions → e.chat_id = some cid →
        { e with chat_id := none } ∈ (delete_chat db cid).executions) ∧
    (∀ e, e ∈ db.executions →
        ∃ e2, e2 ∈ (delete_chat db cid).executions ∧
          e2.chat_id = (if e.chat_id = some cid then none else e.chat_id) ∧
          e2.execution_id = e.execution_id ∧ e2.subtenant_id = e.subtenant_id ∧
          e2.function_name = e.function_name ∧ e2.trigger_type = e.trigger_type ∧
          e2.trigger_id = e.trigger_id ∧ e2.status = e.status ∧
          e2.input_data = e.input_data ∧ e2.output_data = e.output_data ∧
          e2.error = e.error ∧ e2.traceback = e.traceback ∧
          e2.started_at = e.started_at ∧ e2.completed_at = e.completed_at ∧
          e2.duration_ms = e.duration_ms ∧ e2.generator_state = e.generator_state ∧
          e2.input_prompt = e.input_prompt ∧ e2.input_schema = e.input_schema) := by
  refine ⟨?_, ?_, ?_, ?_⟩
  · simp [delete_chat]
  · intro e he hne
    exact List.mem_map.mpr ⟨e, he, by rw [if_neg (by simp [hne])]⟩
  · intro e he hch
    exact List.mem_map.mpr ⟨e, he, by rw [if_pos (by simp [hch])]⟩
  · intro e he
    by_cases hch : e.chat_id = some cid
    · refine ⟨{ e with chat_id := none },
        List.mem_map.mpr ⟨e, he, by rw [if_pos (by simp [hch])]⟩, ?_⟩
      rw [if_pos hch]
      exact ⟨rfl, rfl, rfl, rfl, rfl, rfl, rfl, rfl, rfl, rfl, rfl, rfl, rfl, rfl, rfl, rfl, rfl⟩
    · refine ⟨e, List.mem_map.mpr ⟨e, he, by rw [if_neg (by simp [hch])]⟩, ?_⟩
      rw [if_neg hch]
      exact ⟨rfl, rfl, rfl, rfl, rfl, rfl, rfl, rfl, rfl, rfl, rfl, rfl, rfl, rfl, rfl, rfl, rfl⟩

/-- Witness for C8 at the concrete chat database chDb. -/
theorem c8_chat_delete_set_null_witness :
    { { exRow "e1" 10 with chat_id := some "c1" } with chat_id := none }
      ∈ (delete_chat chDb "c1").executions :=
  (c8_chat_delete_set_null chDb "c1").2.2.1 { exRow "e1" 10 with chat_id := some "c1" }
    (List.mem_singleton.mpr rfl) rfl

/-- Claim C9: the list query applies no subtenant scoping -- two callers with
different subtenant contexts and identical arguments get the same answer --
while the single-execution fetch returns a row only when its subtenant_id
equals the caller's context and answers 404 when no row matches both the id
and the context. -/
theorem c9_subtenant_scoping (db : List ExecutionRow) (ctx1 ctx2 : String)
    (fn : Option String) (st : Option ExecutionStatus) (tt : Option TriggerType)
    (limit offset : Nat) (eid : String) :
    (list_executions_request ctx1 db fn st tt limit offset
        = list_executions_request ctx2 db fn st tt limit offset) ∧
    (∀ e, get_execution db eid ctx1 = .ok e →
        e.subtenant_id = ctx1 ∧ e.execution_id = eid ∧ e ∈ db) ∧
    ((∀ e ∈ db, ¬(e.execution_id = eid ∧ e.subtenant_id = ctx1)) →
        get_execution db eid ctx1 = .error 404) := by
  refine ⟨rfl, ?_, ?_⟩
  · intro e hok
    unfold get_execution at hok
    cases hfind : db.find? (fun r => r.execution_id == eid && r.subtenant_id == ctx1) with
    | none =>
      rw [hfind] at hok
      exact Except.noConfusion hok
    | some e2 =>
      rw [hfind] at hok
      have he2 : e2 = e := by
        cases hok
        rfl
      subst he2
      have hp := @List.find?_some ExecutionRow
        (fun r => r.execution_id == eid && r.subtenant_id == ctx1) e2 db hfind
      have hm := List.mem_of_find?_eq_some hfind
      simp only [Bool.and_eq_true, beq_iff_eq] at hp
      exact ⟨hp.2, hp.1, hm⟩
  · intro hall
    have hnone : db.find? (fun r => r.execution_id == eid && r.subtenant_id == ctx1) = none := by
      refine List.find?_eq_none.mpr ?_
      intro x hx hp
      simp only [Bool.and_eq_true, beq_iff_eq] at hp
      exact hall x hx hp
    simp [get_execution, hnone]

/-- Witness for C9: fetching a concrete execution under its own subtenant
context succeeds and the returned row carries that context. -/
theorem c9_subtenant_scoping_witness :
    (exRow "e1" 10).subtenant_id = "s1" ∧ (exRow "e1" 10).execution_id = "e1" ∧
      exRow "e1" 10 ∈ [exRow "e1" 10] :=
  (c9_subtenant_scoping [exRow "e1" 10] "s1" "s2" none none none 100 0 "e1").2.1
    (exRow "e1" 10) rfl

lemma create_webhook_dup (db : List Webhook) (d : WebhookCreate) (sub nid : String)
    (hmem : ∃ w ∈ db, w.path = d.path) :
    create_webhook db d sub nid = (db, .error 400) := by
  obtain ⟨w, hw, hp⟩ := hmem
  have hsome : (db.find? (fun w2 => w2.path == d.path)).isSome :=
    List.find?_isSome.mpr ⟨w, hw, by simp [hp]⟩
  cases hfind : db.find? (fun w2 => w2.path == d.path) with
  | none => simp [hfind] at hsome
  | some w2 => simp [create_webhook, hfind]

/-- Claim C10: a webhook path can never be registered twice. Creation fails with
400 whenever any stored webhook -- active or not, whatever its method or
subtenant -- already has the path, and creates nothing; deletion only flips
is_active to False, keeping the row and its path, so creating the path again
after a delete still fails with 400. -/
theorem c10_webhook_path_permanent (db : List Webhook) (d : WebhookCreate)
    (sub nid wid : String) :
    (∀ w, w ∈ db → w.path = d.path →
        create_webhook db d sub nid = (db, .error 400)) ∧
    (∀ w, w ∈ db → w.id = wid →
        (delete_webhook db wid).1.length = db.length ∧
        { w with is_active := false } ∈ (delete_webhook db wid).1 ∧
        (w.path = d.path →
            create_webhook (delete_webhook db wid).1 d sub nid
              = ((delete_webhook db wid).1, .error 400))) := by
  constructor
  · intro w hw hp
    exact create_webhook_dup db d sub nid ⟨w, hw, hp⟩
  · intro w hw hid
    have hdel : (delete_webhook db wid).1
        = db.map (fun w2 => if w2.id == wid then { w2 with is_active := false } else w2) := by
      have hsome : (db.find? (fun w2 => w2.id == wid)).isSome :=
        List.find?_isSome.mpr ⟨w, hw, by simp [hid]⟩
      cases hfind : db.find? (fun w2 => w2.id == wid) with
      | none => simp [hfind] at hsome
      | some w2 => simp [delete_webhook, hfind]
    have hmem : { w with is_active := false } ∈ (delete_webhook db wid).1 := by
      rw [hdel]
      exact List.mem_map.mpr ⟨w, hw, by rw [if_pos (by simp [hid])]⟩
    refine ⟨?_, hmem, ?_⟩
    · rw [hdel]
      simp
    · intro hp
      exact create_webhook_dup (delete_webhook db wid).1 d sub nid
        ⟨{ w with is_active := false }, hmem, hp⟩

/-- Witness for C10 at the concrete webhook wh1 and creation request wc1, which
reuses its path with a different method and subtenant. -/
theorem c10_webhook_path_permanent_witness :
    create_webhook [wh1] wc1 "s2" "w9" = ([wh1], .error 400) ∧
    { wh1 with is_active := false } ∈ (delete_webhook [wh1] "w1").1 ∧
    create_webhook (delete_webhook [wh1] "w1").1 wc1 "s2" "w9"
      = ((delete_webhook [wh1] "w1").1, .error 400) := by
  have h := c10_webhook_path_permanent [wh1] wc1 "s2" "w9" "w1"
  exact ⟨h.1 wh1 (List.mem_singleton.mpr rfl) rfl,
         (h.2 wh1 (List.mem_singleton.mpr rfl) rfl).2.1,
         (h.2 wh1 (List.mem_singleton.mpr rfl) rfl).2.2 rfl⟩
